import Mathlib

/-!
Shallow embedding of the VERSATIL backend (src/backend/server.py): the
tenancy/authorization model, token service, resource repositories and the
conversation orchestrator, together with proofs about the claims of the
specification.

Conventions of the embedding:
* MongoDB collections become Lean lists; `find_one` is `List.find?` (first
  match), `delete_one` removes the first match, `delete_many`/`find` filter,
  `insert_one` appends after checking the unique indexes `init_db` creates
  (a violated unique index surfaces as an uncaught `dbDuplicateKey` fault,
  exactly as an uncaught `DuplicateKeyError` would).
* `datetime.utcnow()` and `uuid.uuid4()` are nondeterministic; the embedding
  takes the current time (seconds, `Nat`) and the fresh identifiers as
  explicit arguments.
* External black boxes (bcrypt, the JWT library, the OpenAI/Anthropic
  clients) are modelled by their contracts: hashing is an abstract injective
  tagging, a JWT is a signed payload validated against the key and clock,
  and a provider call is an `Except String String` outcome supplied by the
  environment.
-/

namespace Versatil

/-- HTTP-level failure: either a `fastapi.HTTPException` raised by a handler,
or an uncaught storage-level unique-index violation (`DuplicateKeyError`)
that escapes the handler unwrapped. -/
inductive ServerError where
  | http (status : Nat) (detail : String)
  | dbDuplicateKey (index : String)
deriving DecidableEq, Repr

/-- `ConversationStatus` enum from server.py. -/
inductive ConversationStatus where
  | active
  | archived
  | deleted
deriving DecidableEq, Repr

/-- `GoogleIntegrationStatus` enum from server.py. -/
inductive GoogleIntegrationStatus where
  | connected
  | disconnected
  | error
  | deleted
deriving DecidableEq, Repr

/-- One entry of `Workspace.members`: the `{"user_id", "role", "joined_at"}`
dict built at registration. -/
structure Member where
  user_id : String
  role : String
  joined_at : Nat
deriving DecidableEq, Repr

/-- Pydantic `Workspace` model (description/settings omitted fields keep
their defaults). -/
structure Workspace where
  id : String
  name : String
  slug : String
  description : Option String := none
  owner_id : String
  members : List Member := []
  plan : String := "free"
  created_at : Nat
  updated_at : Nat
deriving DecidableEq, Repr

/-- Pydantic `User` model — the projection returned to clients, which never
carries the password hash. -/
structure User where
  id : String
  email : String
  name : String
  avatar_url : Option String := none
  created_at : Nat
  updated_at : Nat
  workspaces : List String := []
deriving DecidableEq, Repr

/-- A document of the `users` collection: the `User` projection plus the
stored password hash (`user_doc["password"]`). -/
structure StoredUser where
  user : User
  password : String
deriving DecidableEq, Repr

/-- Pydantic `Assistant` model. -/
structure Assistant where
  id : String
  workspace_id : String
  name : String
  description : Option String := none
  type : String := "chat"
  model : String := "gpt-4"
  system_prompt : String
  instructions : String
  created_by : String
  created_at : Nat
  updated_at : Nat
  is_public : Bool := false
  usage_count : Nat := 0
deriving DecidableEq, Repr

/-- Pydantic `Conversation` model (the embedded `messages`/`metadata` dicts
are unused by every handler and omitted). -/
structure Conversation where
  id : String
  workspace_id : String
  assistant_id : String
  user_id : String
  title : String
  status : ConversationStatus
  created_at : Nat
  updated_at : Nat
deriving DecidableEq, Repr

/-- Pydantic `Message` model; `metadata` is a free-form string map,
defaulting to the empty dict. -/
structure Message where
  id : String
  conversation_id : String
  role : String
  content : String
  metadata : List (String × String) := []
  created_at : Nat
deriving DecidableEq, Repr

/-- The credentials dict stored inside a `GoogleIntegration` by the OAuth
callback (server.py lines 1063-1073). -/
structure GoogleCreds where
  token : Option String := none
  refresh_token : Option String := none
  token_uri : Option String := none
  client_id : Option String := none
  client_secret : Option String := none
  scopes : List String := []
  google_user_id : Option String := none
  google_email : Option String := none
  google_name : Option String := none
deriving DecidableEq, Repr

/-- Pydantic `GoogleIntegration` model as stored in `google_integrations`. -/
structure GoogleIntegration where
  id : String
  workspace_id : String
  user_id : String
  service : String
  status : GoogleIntegrationStatus
  credentials : GoogleCreds := {}
  settings : List (String × String) := []
  last_sync : Option Nat := none
  created_at : Nat
  updated_at : Nat
deriving DecidableEq, Repr

/-- The credentials dict `get_google_integrations` substitutes into each
returned record: only the Google email, display name and a connected flag. -/
structure SanitizedCreds where
  google_email : Option String
  google_name : Option String
  connected : Bool
deriving DecidableEq, Repr

/-- A `GoogleIntegration` as returned by `get_google_integrations`, i.e.
with the stored credentials replaced by `SanitizedCreds`. -/
structure GoogleIntegrationView where
  id : String
  workspace_id : String
  user_id : String
  service : String
  status : GoogleIntegrationStatus
  credentials : SanitizedCreds
  settings : List (String × String)
  last_sync : Option Nat
  created_at : Nat
  updated_at : Nat
deriving DecidableEq, Repr

/-- Pydantic `GoogleDocument` model. -/
structure GoogleDocument where
  id : String
  workspace_id : String
  integration_id : String
  google_id : String
  title : String
  content : String
  doc_type : String
  url : String
  last_modified : Nat
  created_at : Nat
deriving DecidableEq, Repr

/-- The MongoDB database `versatil_db` as a record of collections. -/
structure DB where
  users : List StoredUser := []
  workspaces : List Workspace := []
  assistants : List Assistant := []
  conversations : List Conversation := []
  messages : List Message := []
  google_integrations : List GoogleIntegration := []
  google_documents : List GoogleDocument := []
deriving DecidableEq, Repr

/-! ### Storage primitives

`init_db` creates unique indexes on `users.email`, `users.id`,
`workspaces.id`, `workspaces.slug`, `assistants.id`, `conversations.id`,
`google_integrations.id` and `google_documents.id`; `messages` only has a
non-unique index, so message inserts always succeed. An insert that
violates a unique index raises `DuplicateKeyError`, which no handler
catches — modelled as `ServerError.dbDuplicateKey`. -/

def insertUser (db : DB) (su : StoredUser) : Except ServerError DB :=
  if db.users.any (fun x => x.user.email = su.user.email) then
    .error (.dbDuplicateKey "users.email")
  else if db.users.any (fun x => x.user.id = su.user.id) then
    .error (.dbDuplicateKey "users.id")
  else .ok { db with users := db.users ++ [su] }

def insertWorkspace (db : DB) (w : Workspace) : Except ServerError DB :=
  if db.workspaces.any (fun x => x.id = w.id) then
    .error (.dbDuplicateKey "workspaces.id")
  else if db.workspaces.any (fun x => x.slug = w.slug) then
    .error (.dbDuplicateKey "workspaces.slug")
  else .ok { db with workspaces := db.workspaces ++ [w] }

def insertAssistant (db : DB) (a : Assistant) : Except ServerError DB :=
  if db.assistants.any (fun x => x.id = a.id) then
    .error (.dbDuplicateKey "assistants.id")
  else .ok { db with assistants := db.assistants ++ [a] }

def insertConversation (db : DB) (c : Conversation) : Except ServerError DB :=
  if db.conversations.any (fun x => x.id = c.id) then
    .error (.dbDuplicateKey "conversations.id")
  else .ok { db with conversations := db.conversations ++ [c] }

/-- `db.messages.insert_one`: no unique index on `messages`, so this is a
plain append. -/
def insertMessage (db : DB) (m : Message) : DB :=
  { db with messages := db.messages ++ [m] }

/-! ### Utility functions and the token service -/

/-- bcrypt is an external black box; it is modelled as an abstract injective
tagging of the plaintext. No claim depends on its values. -/
def hash_password (password : String) : String :=
  "bcrypt$" ++ password

def verify_password (plain hashed : String) : Bool :=
  hash_password plain == hashed

def JWT_EXPIRATION_HOURS : Nat := 24

/-- Decoded JWT payload: the `sub` claim (absent when the dict passed to
`create_access_token` carried none) and the absolute `exp` timestamp. -/
structure TokenPayload where
  sub : Option String
  exp : Nat
deriving DecidableEq, Repr

/-- A bearer token: either a well-formed JWT signed with some key, or an
arbitrary malformed string. -/
inductive Token where
  | signed (payload : TokenPayload) (key : String)
  | malformed (raw : String)
deriving DecidableEq, Repr

/-- `create_access_token({"sub": sub})`: encodes the subject plus
`exp = now + 24h`, signed with the process-wide secret. -/
def create_access_token (sub : String) (now : Nat) (secret : String) : Token :=
  .signed { sub := some sub, exp := now + JWT_EXPIRATION_HOURS * 3600 } secret

/-- The JWT library contract for `jwt.decode(token, secret, [HS256])`:
`none` models a raised `JWTError` (malformed input, wrong signature, or
expiry in the past — per RFC 7519 the token is valid only while the current
time is strictly before `exp`). -/
def jwt_decode (t : Token) (secret : String) (now : Nat) : Option TokenPayload :=
  match t with
  | .malformed _ => none
  | .signed payload key =>
      if key = secret then (if now < payload.exp then some payload else none)
      else none

/-- `get_current_user`: decode the bearer token, then resolve the `sub`
claim against the `users` collection. -/
def get_current_user (db : DB) (t : Token) (secret : String) (now : Nat) :
    Except ServerError User :=
  match jwt_decode t secret now with
  | none => .error (.http 401 "Invalid token")
  | some payload =>
      match payload.sub with
      | none => .error (.http 401 "Invalid token")
      | some user_id =>
          match db.users.find? (fun su => su.user.id = user_id) with
          | none => .error (.http 401 "User not found")
          | some su => .ok su.user

/-! ### Registration -/

structure TokenResponse where
  access_token : Token
  token_type : String
  user : User
  workspace : Workspace
deriving DecidableEq, Repr

/-- The single-quote character, written by code point to keep string
literals free of quoting issues. -/
def sq : String := "\x27"

/-- Slug derivation for an explicitly provided workspace name:
`workspace_name.lower().replace(" ", "-")`. Lower-casing and the
single-character replacement are performed per character over the string
data (the core `String.replace` does not reduce in the kernel; for a
one-character pattern the two are the same function). -/
def slugify (name : String) : String :=
  String.mk (name.data.map (fun c =>
    if c.toLower = ' ' then '-' else c.toLower))

/-- `POST /api/auth/register`. Returns the (possibly updated) database
together with the handler outcome; on any error the database is unchanged. -/
def register (db : DB) (user_id workspace_id : String) (now : Nat)
    (secret : String) (email password name : String)
    (workspace_name : Option String) :
    DB × Except ServerError TokenResponse :=
  -- Check if user exists
  if db.users.any (fun su => su.user.email = email) then
    (db, .error (.http 400 "Email already registered"))
  else
    let workspace_slug :=
      match workspace_name with
      | some wn => slugify wn
      | none => "workspace-" ++ user_id.take 8
    let workspace : Workspace :=
      { id := workspace_id
        name := match workspace_name with
                | some wn => wn
                | none => name ++ sq ++ "s Workspace"
        slug := workspace_slug
        owner_id := user_id
        members := [{ user_id := user_id, role := "owner", joined_at := now }]
        created_at := now
        updated_at := now }
    match insertWorkspace db workspace with
    | .error e => (db, .error e)
    | .ok db1 =>
        let user : User :=
          { id := user_id
            email := email
            name := name
            workspaces := [workspace_id]
            created_at := now
            updated_at := now }
        match insertUser db1 { user := user, password := hash_password password } with
        | .error e => (db1, .error e)
        | .ok db2 =>
            (db2, .ok { access_token := create_access_token user_id now secret
                        token_type := "bearer"
                        user := user
                        workspace := workspace })

/-! ### Workspace and assistant routes

Every workspace-scoped handler opens with the same membership guard:
`if workspace_id not in current_user.workspaces: raise HTTPException(403,
"Access denied")`. The stored member roles are never consulted. -/

/-- `GET /api/workspaces/{workspace_id}`. -/
def get_workspace (db : DB) (workspace_id : String) (current_user : User) :
    Except ServerError Workspace :=
  if workspace_id ∈ current_user.workspaces then
    match db.workspaces.find? (fun w => w.id = workspace_id) with
    | none => .error (.http 404 "Workspace not found")
    | some w => .ok w
  else .error (.http 403 "Access denied")

/-- `GET /api/workspaces/{workspace_id}/assistants`. -/
def get_assistants (db : DB) (workspace_id : String) (current_user : User) :
    Except ServerError (List Assistant) :=
  if workspace_id ∈ current_user.workspaces then
    .ok (db.assistants.filter (fun a => a.workspace_id == workspace_id))
  else .error (.http 403 "Access denied")

/-- The `assistant_data` dict of `create_assistant`: `name` is accessed
unconditionally, every other field via `.get` with a default. -/
structure AssistantData where
  name : String
  description : Option String := none
  type : String := "chat"
  model : String := "gpt-4"
  system_prompt : String := "You are a helpful AI assistant."
  instructions : String := ""
deriving DecidableEq, Repr

/-- `POST /api/workspaces/{workspace_id}/assistants`. -/
def create_assistant (db : DB) (workspace_id : String)
    (assistant_data : AssistantData) (current_user : User)
    (fresh_id : String) (now : Nat) :
    DB × Except ServerError Assistant :=
  if workspace_id ∈ current_user.workspaces then
    let assistant : Assistant :=
      { id := fresh_id
        workspace_id := workspace_id
        name := assistant_data.name
        description := assistant_data.description
        type := assistant_data.type
        model := assistant_data.model
        system_prompt := assistant_data.system_prompt
        instructions := assistant_data.instructions
        created_by := current_user.id
        created_at := now
        updated_at := now }
    match insertAssistant db assistant with
    | .error e => (db, .error e)
    | .ok db1 => (db1, .ok assistant)
  else (db, .error (.http 403 "Access denied"))

/-- `GET /api/workspaces/{workspace_id}/assistants/{assistant_id}`. -/
def get_assistant (db : DB) (workspace_id assistant_id : String)
    (current_user : User) : Except ServerError Assistant :=
  if workspace_id ∈ current_user.workspaces then
    match db.assistants.find?
        (fun a => a.id = assistant_id ∧ a.workspace_id = workspace_id) with
    | none => .error (.http 404 "Assistant not found")
    | some a => .ok a
  else .error (.http 403 "Access denied")

/-- The partial-update dict of `update_assistant`: each present key
overrides the stored field. -/
structure AssistantUpdate where
  name : Option String := none
  description : Option (Option String) := none
  type : Option String := none
  model : Option String := none
  system_prompt : Option String := none
  instructions : Option String := none
deriving DecidableEq, Repr

/-- The `$set` document computed by `update_assistant` applied to the
stored assistant. -/
def applyAssistantUpdate (a : Assistant) (u : AssistantUpdate) (now : Nat) :
    Assistant :=
  { a with
    name := u.name.getD a.name
    description := u.description.getD a.description
    type := u.type.getD a.type
    model := u.model.getD a.model
    system_prompt := u.system_prompt.getD a.system_prompt
    instructions := u.instructions.getD a.instructions
    updated_at := now }

/-- `PUT /api/workspaces/{workspace_id}/assistants/{assistant_id}`. -/
def update_assistant (db : DB) (workspace_id assistant_id : String)
    (assistant_data : AssistantUpdate) (current_user : User) (now : Nat) :
    DB × Except ServerError Assistant :=
  if workspace_id ∈ current_user.workspaces then
    match db.assistants.find?
        (fun a => a.id = assistant_id ∧ a.workspace_id = workspace_id) with
    | none => (db, .error (.http 404 "Assistant not found"))
    | some existing =>
        let updated := applyAssistantUpdate existing assistant_data now
        let db1 : DB :=
          { db with
            assistants := db.assistants.map (fun a =>
              if a.id = assistant_id ∧ a.workspace_id = workspace_id then
                updated
              else a) }
        (db1, .ok updated)
  else (db, .error (.http 403 "Access denied"))

/-- `DELETE /api/workspaces/{workspace_id}/assistants/{assistant_id}`.
The conversation cascade deletes every matching conversation; the message
cascade is the source's literal `{"conversation_id": {"$in": []}}` filter,
which matches no document. -/
def delete_assistant (db : DB) (workspace_id assistant_id : String)
    (current_user : User) : DB × Except ServerError String :=
  if workspace_id ∈ current_user.workspaces then
    match db.assistants.find?
        (fun a => a.id = assistant_id ∧ a.workspace_id = workspace_id) with
    | none => (db, .error (.http 404 "Assistant not found"))
    | some _ =>
        let db1 : DB :=
          { db with
            assistants := db.assistants.eraseP
              (fun a => a.id == assistant_id && a.workspace_id == workspace_id) }
        let db2 : DB :=
          { db1 with
            conversations := db1.conversations.filter (fun c =>
              !(c.assistant_id == assistant_id && c.workspace_id == workspace_id)) }
        let db3 : DB :=
          { db2 with
            messages := db2.messages.filter (fun m =>
              !(([] : List String).contains m.conversation_id)) }
        (db3, .ok "Assistant deleted successfully")
  else (db, .error (.http 403 "Access denied"))

/-! ### Conversation routes -/

/-- The Mongo sort key of `get_conversations`: `updated_at` descending. -/
def convRecent (a b : Conversation) : Prop :=
  b.updated_at ≤ a.updated_at

instance : DecidableRel convRecent :=
  fun a b => Nat.decLe b.updated_at a.updated_at

instance : IsTotal Conversation convRecent :=
  ⟨fun a b => (Nat.le_total b.updated_at a.updated_at).elim Or.inl Or.inr⟩

instance : IsTrans Conversation convRecent :=
  ⟨fun _ _ _ hab hbc => Nat.le_trans hbc hab⟩

/-- `GET /api/workspaces/{workspace_id}/conversations`: the caller's own
non-deleted conversations of the workspace, `updated_at` descending. -/
def get_conversations (db : DB) (workspace_id : String)
    (current_user : User) : Except ServerError (List Conversation) :=
  if workspace_id ∈ current_user.workspaces then
    .ok (List.insertionSort convRecent
      (db.conversations.filter (fun c =>
        c.workspace_id == workspace_id &&
        c.user_id == current_user.id &&
        !(c.status == ConversationStatus.deleted))))
  else .error (.http 403 "Access denied")

/-- The `conversation_data` dict of `create_conversation`: `assistant_id`
is accessed unconditionally, `title` via `.get` with a default. -/
structure ConversationData where
  assistant_id : String
  title : String := "New Conversation"
deriving DecidableEq, Repr

/-- `POST /api/workspaces/{workspace_id}/conversations`. -/
def create_conversation (db : DB) (workspace_id : String)
    (conversation_data : ConversationData) (current_user : User)
    (fresh_id : String) (now : Nat) :
    DB × Except ServerError Conversation :=
  if workspace_id ∈ current_user.workspaces then
    let conversation : Conversation :=
      { id := fresh_id
        workspace_id := workspace_id
        assistant_id := conversation_data.assistant_id
        user_id := current_user.id
        title := conversation_data.title
        status := ConversationStatus.active
        created_at := now
        updated_at := now }
    match insertConversation db conversation with
    | .error e => (db, .error e)
    | .ok db1 => (db1, .ok conversation)
  else (db, .error (.http 403 "Access denied"))

/-! ### Conversation orchestrator (`send_message`) -/

/-- Process environment for the provider clients: `os.getenv` results for
the two API keys (`none` when unset). -/
structure ProviderEnv where
  openai_api_key : Option String := none
  anthropic_api_key : Option String := none
deriving DecidableEq, Repr

/-- `if openai_api_key and openai_api_key != "your-openai-api-key"`:
Python truthiness makes both an unset and an empty key falsy. -/
def openaiConfigured (env : ProviderEnv) : Bool :=
  match env.openai_api_key with
  | none => false
  | some k => k ≠ "" && k ≠ "your-openai-api-key"

/-- `if anthropic_api_key and anthropic_api_key != "your-anthropic-api-key"`. -/
def anthropicConfigured (env : ProviderEnv) : Bool :=
  match env.anthropic_api_key with
  | none => false
  | some k => k ≠ "" && k ≠ "your-anthropic-api-key"

/-- `assistant.model.startswith("gpt")` as an executable prefix test on
the character data (the core `String.startsWith` does not reduce in the
kernel). -/
def strStartsWith (s p : String) : Bool :=
  p.data.isPrefixOf s.data

/-- The fallback reply of the OpenAI branch, an f-string over the assistant
name and the inbound content. -/
def demoGptReply (assistant_name content : String) : String :=
  "I" ++ sq ++ "m a " ++ assistant_name ++ " assistant. You asked: " ++ sq ++
  content ++ sq ++
  ". (This is a demo response - configure OpenAI API key for real AI responses)"

/-- The fallback reply of the Anthropic branch. -/
def demoClaudeReply (assistant_name content : String) : String :=
  "I" ++ sq ++ "m a " ++ assistant_name ++ " assistant. You asked: " ++ sq ++
  content ++ sq ++
  ". (This is a demo response - configure Anthropic API key for real AI responses)"

/-- The `ai_content` computation of `send_message`: route on the model
prefix, use the provider call outcome when the key is configured, the demo
reply otherwise. An `.error` models the provider client raising. -/
def generateAiContent (assistant : Assistant) (content : String)
    (env : ProviderEnv) (providerResult : Except String String) :
    Except String String :=
  if strStartsWith assistant.model "gpt" then
    if openaiConfigured env then providerResult
    else .ok (demoGptReply assistant.name content)
  else
    if anthropicConfigured env then providerResult
    else .ok (demoClaudeReply assistant.name content)

structure SendMessageResponse where
  user_message : Message
  assistant_message : Message
deriving DecidableEq, Repr

/-- `db.conversations.find_one({"id": conversation_id, "user_id": user_id})`:
lookup by identifier and caller ownership only — the status field is not
part of the filter. -/
def findConversation (db : DB) (conversation_id user_id : String) :
    Option Conversation :=
  db.conversations.find? (fun c =>
    c.id = conversation_id ∧ c.user_id = user_id)

/-- `db.assistants.find_one({"id": assistant_id})`. -/
def findAssistant (db : DB) (assistant_id : String) : Option Assistant :=
  db.assistants.find? (fun a => a.id = assistant_id)

/-- `POST /api/conversations/{conversation_id}/messages`. The user message
is inserted before the provider block; an exception inside the block maps
to HTTP 500 with the cause, leaving the inserted user message in place. -/
def send_message (db : DB) (conversation_id : String) (content : String)
    (current_user : User) (env : ProviderEnv)
    (providerResult : Except String String)
    (user_msg_id assistant_msg_id : String) (now : Nat) :
    DB × Except ServerError SendMessageResponse :=
  match findConversation db conversation_id current_user.id with
  | none => (db, .error (.http 404 "Conversation not found"))
  | some conversation =>
      match findAssistant db conversation.assistant_id with
      | none => (db, .error (.http 404 "Assistant not found"))
      | some assistant =>
          let user_message : Message :=
            { id := user_msg_id
              conversation_id := conversation_id
              role := "user"
              content := content
              created_at := now }
          let db1 := insertMessage db user_message
          match generateAiContent assistant content env providerResult with
          | .error e =>
              (db1, .error (.http 500 ("AI response error: " ++ e)))
          | .ok ai_content =>
              let assistant_message : Message :=
                { id := assistant_msg_id
                  conversation_id := conversation_id
                  role := "assistant"
                  content := ai_content
                  created_at := now }
              let db2 := insertMessage db1 assistant_message
              let db3 : DB :=
                { db2 with
                  conversations := db2.conversations.map (fun c =>
                    if c.id = conversation_id then { c with updated_at := now }
                    else c) }
              (db3, .ok { user_message := user_message
                          assistant_message := assistant_message })

/-! ### Google integration routes -/

/-- The credential substitution of `get_google_integrations`: only the
Google email, display name and a constant connected flag survive. -/
def sanitizeIntegration (g : GoogleIntegration) : GoogleIntegrationView :=
  { id := g.id
    workspace_id := g.workspace_id
    user_id := g.user_id
    service := g.service
    status := g.status
    credentials := { google_email := g.credentials.google_email
                     google_name := g.credentials.google_name
                     connected := true }
    settings := g.settings
    last_sync := g.last_sync
    created_at := g.created_at
    updated_at := g.updated_at }

/-- `GET /api/workspaces/{workspace_id}/google/integrations`: workspace
integrations whose status is not deleted, credentials sanitized. -/
def get_google_integrations (db : DB) (workspace_id : String)
    (current_user : User) : Except ServerError (List GoogleIntegrationView) :=
  if workspace_id ∈ current_user.workspaces then
    .ok ((db.google_integrations.filter (fun g =>
        g.workspace_id == workspace_id &&
        !(g.status == GoogleIntegrationStatus.deleted))).map
      sanitizeIntegration)
  else .error (.http 403 "Access denied")

/-- One Google Drive file as listed by the sync routine, together with the
extractor output the kind-specific Google API calls would produce for it
and the fresh identifier `uuid4` supplies for the local record. -/
structure DriveFileData where
  id : String
  name : String
  mimeType : String
  modifiedTime : Nat
  webViewLink : String
  extracted : String
  fresh_doc_id : String
deriving DecidableEq, Repr

/-- Outcome of the whole external portion of the sync `try` block: any
raised exception (credential rebuild, listing, extraction) or the listed
files. -/
inductive SyncOutcome where
  | failure (msg : String)
  | success (files : List DriveFileData)
deriving DecidableEq, Repr

def mimeDocument : String := "application/vnd.google-apps.document"
def mimeSpreadsheet : String := "application/vnd.google-apps.spreadsheet"
def mimeSlides : String := "application/vnd.google-apps.presentation"

def docTypeOfMime (mime : String) : String :=
  if mime == mimeSpreadsheet then "spreadsheet"
  else if mime == mimeSlides then "presentation"
  else "document"

/-- Upsert by `{"google_id", "workspace_id"}` with `$set` of the full new
document: replace the first match in place, append when absent. -/
def upsertGoogleDocument (docs : List GoogleDocument) (d : GoogleDocument) :
    List GoogleDocument :=
  if docs.any (fun x => x.google_id == d.google_id && x.workspace_id == d.workspace_id)
  then
    (docs.map (fun x =>
      if x.google_id == d.google_id && x.workspace_id == d.workspace_id then d
      else x))
  else docs ++ [d]

/-- `POST /api/workspaces/{workspace_id}/google/sync`. -/
def sync_google_data (db : DB) (workspace_id integration_id : String)
    (current_user : User) (outcome : SyncOutcome) (now : Nat) :
    DB × Except ServerError (List GoogleDocument) :=
  if workspace_id ∈ current_user.workspaces then
    match db.google_integrations.find? (fun g =>
        g.id = integration_id ∧ g.workspace_id = workspace_id) with
    | none => (db, .error (.http 404 "Integration not found"))
    | some _ =>
        match outcome with
        | .failure msg => (db, .error (.http 500 ("Sync failed: " ++ msg)))
        | .success files =>
            let supported := files.filter (fun f =>
              f.mimeType == mimeDocument ||
              f.mimeType == mimeSpreadsheet ||
              f.mimeType == mimeSlides)
            let synced := supported.map (fun f =>
              ({ id := f.fresh_doc_id
                 workspace_id := workspace_id
                 integration_id := integration_id
                 google_id := f.id
                 title := f.name
                 content := f.extracted
                 doc_type := docTypeOfMime f.mimeType
                 url := f.webViewLink
                 last_modified := f.modifiedTime
                 created_at := now } : GoogleDocument))
            let db1 : DB :=
              { db with
                google_documents := synced.foldl upsertGoogleDocument
                  db.google_documents }
            let db2 : DB :=
              { db1 with
                google_integrations := db1.google_integrations.map (fun g =>
                  if g.id = integration_id then { g with last_sync := some now }
                  else g) }
            (db2, .ok synced)
  else (db, .error (.http 403 "Access denied"))

/-- Sort key of `get_google_documents`: `last_modified` descending. -/
def docRecent (a b : GoogleDocument) : Prop :=
  b.last_modified ≤ a.last_modified

instance : DecidableRel docRecent :=
  fun a b => Nat.decLe b.last_modified a.last_modified

/-- `GET /api/workspaces/{workspace_id}/google/documents`. -/
def get_google_documents (db : DB) (workspace_id : String)
    (current_user : User) : Except ServerError (List GoogleDocument) :=
  if workspace_id ∈ current_user.workspaces then
    .ok (List.insertionSort docRecent
      (db.google_documents.filter (fun d => d.workspace_id == workspace_id)))
  else .error (.http 403 "Access denied")

/-! ### Authorization gate lemmas -/

/-- The request was rejected by the membership guard: HTTP 403 with detail
"Access denied", carrying no resource data. -/
def isForbidden {α : Type} (r : Except ServerError α) : Prop :=
  r = .error (.http 403 "Access denied")

lemma forbidden_get_workspace (db : DB) (wid : String) (u : User) :
    isForbidden (get_workspace db wid u) ↔ wid ∉ u.workspaces := by
  unfold get_workspace isForbidden
  split
  · split <;> simp_all
  · simp_all

lemma forbidden_get_assistants (db : DB) (wid : String) (u : User) :
    isForbidden (get_assistants db wid u) ↔ wid ∉ u.workspaces := by
  unfold get_assistants isForbidden
  split <;> simp_all

lemma forbidden_create_assistant (db : DB) (wid : String)
    (d : AssistantData) (u : User) (fid : String) (now : Nat) :
    isForbidden (create_assistant db wid d u fid now).2 ↔
      wid ∉ u.workspaces := by
  unfold create_assistant isForbidden
  split
  · dsimp only
    split
    · rename_i e heq
      unfold insertAssistant at heq
      split at heq <;> simp_all
      subst heq
      exact fun hc => ServerError.noConfusion hc
    · simp_all
  · simp_all

lemma forbidden_get_assistant (db : DB) (wid aid : String) (u : User) :
    isForbidden (get_assistant db wid aid u) ↔ wid ∉ u.workspaces := by
  unfold get_assistant isForbidden
  split
  · split <;> simp_all
  · simp_all

lemma forbidden_update_assistant (db : DB) (wid aid : String)
    (d : AssistantUpdate) (u : User) (now : Nat) :
    isForbidden (update_assistant db wid aid d u now).2 ↔
      wid ∉ u.workspaces := by
  unfold update_assistant isForbidden
  split
  · split <;> simp_all
  · simp_all

lemma forbidden_delete_assistant (db : DB) (wid aid : String) (u : User) :
    isForbidden (delete_assistant db wid aid u).2 ↔ wid ∉ u.workspaces := by
  unfold delete_assistant isForbidden
  split
  · split <;> simp_all
  · simp_all

lemma forbidden_get_conversations (db : DB) (wid : String) (u : User) :
    isForbidden (get_conversations db wid u) ↔ wid ∉ u.workspaces := by
  unfold get_conversations isForbidden
  split <;> simp_all

lemma forbidden_create_conversation (db : DB) (wid : String)
    (d : ConversationData) (u : User) (fid : String) (now : Nat) :
    isForbidden (create_conversation db wid d u fid now).2 ↔
      wid ∉ u.workspaces := by
  unfold create_conversation isForbidden
  split
  · dsimp only
    split
    · rename_i e heq
      unfold insertConversation at heq
      split at heq <;> simp_all
      subst heq
      exact fun hc => ServerError.noConfusion hc
    · simp_all
  · simp_all

lemma forbidden_get_google_integrations (db : DB) (wid : String) (u : User) :
    isForbidden (get_google_integrations db wid u) ↔ wid ∉ u.workspaces := by
  unfold get_google_integrations isForbidden
  split <;> simp_all

lemma forbidden_sync_google_data (db : DB) (wid iid : String) (u : User)
    (outcome : SyncOutcome) (now : Nat) :
    isForbidden (sync_google_data db wid iid u outcome now).2 ↔
      wid ∉ u.workspaces := by
  unfold sync_google_data isForbidden
  split
  · split
    · simp_all
    · split <;> simp_all
  · simp_all

lemma forbidden_get_google_documents (db : DB) (wid : String) (u : User) :
    isForbidden (get_google_documents db wid u) ↔ wid ∉ u.workspaces := by
  unfold get_google_documents isForbidden
  split <;> simp_all

/-- **C1.** For every authenticated user and every workspace-scoped
endpoint (get workspace; list/create/get/update/delete assistants;
list/create conversations; Google integrations, sync and documents), the
request is rejected with 403 "Access denied" — and hence returns no
resource data — exactly when the workspace identifier is not in the user's
`workspaces` membership list; when it is a member, the guard passes with no
further role-based restriction (no handler consults the stored roles). -/
theorem claim_c1_membership_gate (db : DB) (wid aid iid : String) (u : User)
    (ad : AssistantData) (au : AssistantUpdate) (cd : ConversationData)
    (fid : String) (outcome : SyncOutcome) (now : Nat) :
    (isForbidden (get_workspace db wid u) ↔ wid ∉ u.workspaces) ∧
    (isForbidden (get_assistants db wid u) ↔ wid ∉ u.workspaces) ∧
    (isForbidden (create_assistant db wid ad u fid now).2 ↔
      wid ∉ u.workspaces) ∧
    (isForbidden (get_assistant db wid aid u) ↔ wid ∉ u.workspaces) ∧
    (isForbidden (update_assistant db wid aid au u now).2 ↔
      wid ∉ u.workspaces) ∧
    (isForbidden (delete_assistant db wid aid u).2 ↔ wid ∉ u.workspaces) ∧
    (isForbidden (get_conversations db wid u) ↔ wid ∉ u.workspaces) ∧
    (isForbidden (create_conversation db wid cd u fid now).2 ↔
      wid ∉ u.workspaces) ∧
    (isForbidden (get_google_integrations db wid u) ↔ wid ∉ u.workspaces) ∧
    (isForbidden (sync_google_data db wid iid u outcome now).2 ↔
      wid ∉ u.workspaces) ∧
    (isForbidden (get_google_documents db wid u) ↔ wid ∉ u.workspaces) :=
  ⟨forbidden_get_workspace db wid u,
   forbidden_get_assistants db wid u,
   forbidden_create_assistant db wid ad u fid now,
   forbidden_get_assistant db wid aid u,
   forbidden_update_assistant db wid aid au u now,
   forbidden_delete_assistant db wid aid u,
   forbidden_get_conversations db wid u,
   forbidden_create_conversation db wid cd u fid now,
   forbidden_get_google_integrations db wid u,
   forbidden_sync_google_data db wid iid u outcome now,
   forbidden_get_google_documents db wid u⟩

/-! ### C4: token service round-trip and failure modes -/

/-- **C4.** A token issued for user U at `t0` verifies back to U's stored
identity at any time strictly before the 24-hour expiry; verification
fails with 401 for an expired, malformed or wrongly-signed token, and
fails with 401 "User not found" when the encoded subject no longer
resolves to a stored user. -/
theorem claim_c4_token_service (db : DB) (secret uid raw : String)
    (t0 t : Nat) (p : TokenPayload) (k : String) :
    (∀ su, db.users.find? (fun s => s.user.id = uid) = some su →
      t < t0 + JWT_EXPIRATION_HOURS * 3600 →
      get_current_user db (create_access_token uid t0 secret) secret t =
        .ok su.user) ∧
    (t0 + JWT_EXPIRATION_HOURS * 3600 ≤ t →
      get_current_user db (create_access_token uid t0 secret) secret t =
        .error (.http 401 "Invalid token")) ∧
    (get_current_user db (.malformed raw) secret t =
      .error (.http 401 "Invalid token")) ∧
    (k ≠ secret →
      get_current_user db (.signed p k) secret t =
        .error (.http 401 "Invalid token")) ∧
    (db.users.find? (fun s => s.user.id = uid) = none →
      t < t0 + JWT_EXPIRATION_HOURS * 3600 →
      get_current_user db (create_access_token uid t0 secret) secret t =
        .error (.http 401 "User not found")) := by
  refine ⟨?_, ?_, ?_, ?_, ?_⟩
  · intro su hfind ht
    simp [get_current_user, jwt_decode, create_access_token, ht, hfind]
  · intro ht
    simp [get_current_user, jwt_decode, create_access_token,
      Nat.not_lt.mpr ht]
  · simp [get_current_user, jwt_decode]
  · intro hk
    simp [get_current_user, jwt_decode, hk]
  · intro hfind ht
    simp [get_current_user, jwt_decode, create_access_token, ht, hfind]

def userC4 : User :=
  { id := "u1", email := "alice@example.com", name := "Alice",
    created_at := 0, updated_at := 0, workspaces := ["w1"] }

def dbC4 : DB :=
  { users := [{ user := userC4, password := hash_password "pw" }] }

/-- Witness for C4 at a concrete store: the token issued at time 0 for
`u1` verifies at `t = 86399`, fails at `t = 86400`, a malformed and a
wrongly-signed token fail, and a token for an absent subject fails with
"User not found". -/
theorem claim_c4_token_service_witness :
    get_current_user dbC4 (create_access_token "u1" 0 "secret") "secret"
        86399 = .ok userC4 ∧
    get_current_user dbC4 (create_access_token "u1" 0 "secret") "secret"
        86400 = .error (.http 401 "Invalid token") ∧
    get_current_user dbC4 (.malformed "garbage") "secret" 10 =
      .error (.http 401 "Invalid token") ∧
    get_current_user dbC4
        (.signed { sub := some "u1", exp := 86400 } "wrong-key") "secret" 10 =
      .error (.http 401 "Invalid token") ∧
    get_current_user dbC4 (create_access_token "ghost" 0 "secret") "secret"
        10 = .error (.http 401 "User not found") :=
  ⟨(claim_c4_token_service dbC4 "secret" "u1" "garbage" 0 86399
      { sub := some "u1", exp := 86400 } "wrong-key").1
      { user := userC4, password := hash_password "pw" } (by decide)
      (by decide),
   (claim_c4_token_service dbC4 "secret" "u1" "garbage" 0 86400
      { sub := some "u1", exp := 86400 } "wrong-key").2.1 (by decide),
   (claim_c4_token_service dbC4 "secret" "u1" "garbage" 0 10
      { sub := some "u1", exp := 86400 } "wrong-key").2.2.1,
   (claim_c4_token_service dbC4 "secret" "u1" "garbage" 0 10
      { sub := some "u1", exp := 86400 } "wrong-key").2.2.2.1 (by decide),
   (claim_c4_token_service dbC4 "secret" "ghost" "garbage" 0 10
      { sub := some "u1", exp := 86400 } "wrong-key").2.2.2.2 (by decide)
      (by decide)⟩

/-! ### C2: user message durability across provider failure -/

/-- **C2.** When `send_message` resolves a conversation owned by the caller
and its assistant, and the routed provider is configured but its call
fails, the handler surfaces HTTP 500 carrying the underlying cause while
the user message — inserted before the provider dispatch — stays in the
message store. -/
theorem claim_c2_user_message_durable (db : DB) (u : User)
    (cid content : String) (conv : Conversation) (asst : Assistant)
    (env : ProviderEnv) (e umid amid : String) (now : Nat)
    (hconv : findConversation db cid u.id = some conv)
    (hasst : findAssistant db conv.assistant_id = some asst)
    (hprov : (strStartsWith asst.model "gpt" = true ∧
        openaiConfigured env = true) ∨
      (strStartsWith asst.model "gpt" = false ∧
        anthropicConfigured env = true)) :
    (send_message db cid content u env (.error e) umid amid now).2 =
      .error (.http 500 ("AI response error: " ++ e)) ∧
    ({ id := umid, conversation_id := cid, role := "user",
       content := content, created_at := now } : Message) ∈
      (send_message db cid content u env (.error e) umid amid now).1.messages
    := by
  unfold send_message
  rw [hconv]
  dsimp only
  rw [hasst]
  dsimp only
  unfold generateAiContent
  rcases hprov with ⟨hm, hk⟩ | ⟨hm, hk⟩ <;>
    simp [hm, hk, insertMessage, List.mem_append]

def userC2 : User :=
  { id := "u1", email := "alice@example.com", name := "Alice",
    created_at := 0, updated_at := 0, workspaces := ["w1"] }

def asstC2 : Assistant :=
  { id := "a1", workspace_id := "w1", name := "Helper",
    system_prompt := "You are a helpful AI assistant.", instructions := "",
    created_by := "u1", created_at := 0, updated_at := 0 }

def convC2 : Conversation :=
  { id := "c1", workspace_id := "w1", assistant_id := "a1", user_id := "u1",
    title := "Chat", status := ConversationStatus.active, created_at := 0,
    updated_at := 0 }

def dbC2 : DB := { assistants := [asstC2], conversations := [convC2] }

def envC2 : ProviderEnv := { openai_api_key := some "sk-live" }

/-- Witness for C2: a configured gpt-model assistant whose provider call
raises "rate limit" yields HTTP 500 with the cause while the user message
is already stored. -/
theorem claim_c2_user_message_durable_witness :
    (send_message dbC2 "c1" "hi" userC2 envC2 (.error "rate limit") "m1"
        "m2" 7).2 =
      .error (.http 500 ("AI response error: " ++ "rate limit")) ∧
    ({ id := "m1", conversation_id := "c1", role := "user", content := "hi",
       created_at := 7 } : Message) ∈
      (send_message dbC2 "c1" "hi" userC2 envC2 (.error "rate limit") "m1"
        "m2" 7).1.messages :=
  claim_c2_user_message_durable dbC2 userC2 "c1" "hi" convC2 asstC2 envC2
    "rate limit" "m1" "m2" 7 (by decide) (by decide)
    (Or.inl ⟨by decide, by decide⟩)

/-! ### C9: conversation status never consulted by send_message -/

/-- **C9.** `send_message` resolves the conversation by identifier and
caller ownership only: whatever the conversation's status (including
archived or deleted), once the lookup succeeds and the assistant exists
the user message is persisted and the request is not rejected with the
404 "Conversation not found" error. The status field appears nowhere in
`findConversation`. -/
theorem claim_c9_status_never_consulted (db : DB) (u : User)
    (cid content : String) (conv : Conversation) (asst : Assistant)
    (env : ProviderEnv) (pr : Except String String) (umid amid : String)
    (now : Nat)
    (hconv : findConversation db cid u.id = some conv)
    (hasst : findAssistant db conv.assistant_id = some asst) :
    ({ id := umid, conversation_id := cid, role := "user",
       content := content, created_at := now } : Message) ∈
      (send_message db cid content u env pr umid amid now).1.messages ∧
    (send_message db cid content u env pr umid amid now).2 ≠
      .error (.http 404 "Conversation not found") := by
  unfold send_message
  rw [hconv]
  dsimp only
  rw [hasst]
  dsimp only
  constructor
  · split <;> simp [insertMessage, List.mem_append]
  · split <;> simp

def userC9 : User :=
  { id := "u1", email := "alice@example.com", name := "Alice",
    created_at := 0, updated_at := 0, workspaces := ["w1"] }

def asstC9 : Assistant :=
  { id := "a1", workspace_id := "w1", name := "Helper",
    system_prompt := "You are a helpful AI assistant.", instructions := "",
    created_by := "u1", created_at := 0, updated_at := 0 }

/-- A conversation the owner has already marked deleted. -/
def convC9 : Conversation :=
  { id := "c1", workspace_id := "w1", assistant_id := "a1", user_id := "u1",
    title := "Chat", status := ConversationStatus.deleted, created_at := 0,
    updated_at := 0 }

def dbC9 : DB := { assistants := [asstC9], conversations := [convC9] }

/-- Witness for C9: even into a conversation whose status is `deleted`,
`send_message` persists the caller's message instead of rejecting. -/
theorem claim_c9_status_never_consulted_witness :
    ({ id := "m1", conversation_id := "c1", role := "user", content := "hi",
       created_at := 3 } : Message) ∈
      (send_message dbC9 "c1" "hi" userC9 {} (.error "no key") "m1" "m2"
        3).1.messages ∧
    (send_message dbC9 "c1" "hi" userC9 {} (.error "no key") "m1" "m2"
        3).2 ≠ .error (.http 404 "Conversation not found") :=
  claim_c9_status_never_consulted dbC9 userC9 "c1" "hi" convC9 asstC9 {}
    (.error "no key") "m1" "m2" 3 (by decide) (by decide)

/-! ### C6: demo-mode synthetic echo reply -/

def userC6 : User :=
  { id := "u1", email := "alice@example.com", name := "Alice",
    created_at := 0, updated_at := 0, workspaces := ["w1"] }

def asstC6 : Assistant :=
  { id := "a1", workspace_id := "w1", name := "Helper",
    system_prompt := "You are a helpful AI assistant.", instructions := "",
    created_by := "u1", created_at := 0, updated_at := 0 }

def convC6 : Conversation :=
  { id := "c1", workspace_id := "w1", assistant_id := "a1", user_id := "u1",
    title := "Chat", status := ConversationStatus.active, created_at := 0,
    updated_at := 0 }

def dbC6 : DB := { assistants := [asstC6], conversations := [convC6] }

/-- **C6 counterexample.** With no provider credentials configured the
request succeeds with the synthetic echo reply, but the assistant
message's `metadata` is exactly the empty dict: the demo label lives only
in the `content` text, so nothing tags the reply in the metadata as the
claim states. -/
theorem claim_c6_counterexample :
    (send_message dbC6 "c1" "hi" userC6 {} (.error "unused") "m1" "m2"
        5).2 =
      .ok { user_message :=
              { id := "m1", conversation_id := "c1", role := "user",
                content := "hi", created_at := 5 },
            assistant_message :=
              { id := "m2", conversation_id := "c1", role := "assistant",
                content := demoGptReply "Helper" "hi", metadata := [],
                created_at := 5 } } ∧
    demoGptReply "Helper" "hi" =
      "I\x27m a Helper assistant. You asked: \x27hi\x27. (This is a demo " ++
      "response - configure OpenAI API key for real AI responses)" := by
  refine ⟨rfl, by decide⟩

/-- **C6 (amended).** When the provider credentials for both families are
absent, `send_message` does not fail: it returns a synthetic echo reply
whose `content` is the demo-labeled template quoting the user's input —
but the label lives in the content text, and the assistant message's
`metadata` stays the empty dict. -/
theorem claim_c6_demo_reply (db : DB) (u : User) (cid content : String)
    (conv : Conversation) (asst : Assistant) (env : ProviderEnv)
    (pr : Except String String) (umid amid : String) (now : Nat)
    (hconv : findConversation db cid u.id = some conv)
    (hasst : findAssistant db conv.assistant_id = some asst)
    (hopenai : openaiConfigured env = false)
    (hanthropic : anthropicConfigured env = false) :
    (send_message db cid content u env pr umid amid now).2 =
      .ok { user_message :=
              { id := umid, conversation_id := cid, role := "user",
                content := content, created_at := now },
            assistant_message :=
              { id := amid, conversation_id := cid, role := "assistant",
                content :=
                  if strStartsWith asst.model "gpt" then
                    demoGptReply asst.name content
                  else demoClaudeReply asst.name content,
                metadata := [], created_at := now } } := by
  unfold send_message
  rw [hconv]
  dsimp only
  rw [hasst]
  dsimp only
  unfold generateAiContent
  cases hm : strStartsWith asst.model "gpt" <;>
    simp [hm, hopenai, hanthropic]

def asstC6b : Assistant :=
  { id := "a1", workspace_id := "w1", name := "Helper",
    model := "claude-3-sonnet", system_prompt := "sp", instructions := "",
    created_by := "u1", created_at := 0, updated_at := 0 }

def dbC6b : DB := { assistants := [asstC6b], conversations := [convC6] }

/-- Witness for the amended C6, on the Anthropic branch: a non-gpt model
without credentials yields the Anthropic demo template with empty
metadata. -/
theorem claim_c6_demo_reply_witness :
    (send_message dbC6b "c1" "hello" userC6 {} (.error "unused") "m1" "m2"
        9).2 =
      .ok { user_message :=
              { id := "m1", conversation_id := "c1", role := "user",
                content := "hello", created_at := 9 },
            assistant_message :=
              { id := "m2", conversation_id := "c1", role := "assistant",
                content :=
                  if strStartsWith asstC6b.model "gpt" then
                    demoGptReply asstC6b.name "hello"
                  else demoClaudeReply asstC6b.name "hello",
                metadata := [], created_at := 9 } } :=
  claim_c6_demo_reply dbC6b userC6 "c1" "hello" convC6 asstC6b {}
    (.error "unused") "m1" "m2" 9 (by decide) (by decide) (by decide)
    (by decide)

/-! ### C7: conversation listing is owner-scoped, non-deleted, newest first -/

/-- **C7.** For a member of the workspace, `get_conversations` returns
exactly the conversations of that workspace owned by the requesting user
whose status is not deleted, ordered by `updated_at` newest first. -/
theorem claim_c7_conversations_list (db : DB) (u : User) (wid : String)
    (h : wid ∈ u.workspaces) :
    ∃ l, get_conversations db wid u = .ok l ∧
      List.Perm l (db.conversations.filter (fun c =>
        c.workspace_id == wid && c.user_id == u.id &&
        !(c.status == ConversationStatus.deleted))) ∧
      List.Sorted convRecent l := by
  unfold get_conversations
  rw [if_pos h]
  exact ⟨_, rfl, List.perm_insertionSort convRecent _,
    List.sorted_insertionSort convRecent _⟩

def userC7 : User :=
  { id := "u1", email := "alice@example.com", name := "Alice",
    created_at := 0, updated_at := 0, workspaces := ["w1"] }

def convC7old : Conversation :=
  { id := "c1", workspace_id := "w1", assistant_id := "a1", user_id := "u1",
    title := "Old", status := ConversationStatus.active, created_at := 1,
    updated_at := 1 }

def convC7new : Conversation :=
  { id := "c2", workspace_id := "w1", assistant_id := "a1", user_id := "u1",
    title := "New", status := ConversationStatus.archived, created_at := 2,
    updated_at := 9 }

def convC7deleted : Conversation :=
  { id := "c3", workspace_id := "w1", assistant_id := "a1", user_id := "u1",
    title := "Gone", status := ConversationStatus.deleted, created_at := 3,
    updated_at := 20 }

def convC7other : Conversation :=
  { id := "c4", workspace_id := "w1", assistant_id := "a1", user_id := "u2",
    title := "Theirs", status := ConversationStatus.active, created_at := 4,
    updated_at := 30 }

def dbC7 : DB :=
  { conversations := [convC7old, convC7new, convC7deleted, convC7other] }

/-- Witness for C7: with an older and a newer own conversation, a deleted
one and another user's, the listing is exactly the two live own
conversations, newest first. -/
theorem claim_c7_conversations_list_witness :
    ∃ l, get_conversations dbC7 "w1" userC7 = .ok l ∧
      List.Perm l (dbC7.conversations.filter (fun c =>
        c.workspace_id == "w1" && c.user_id == userC7.id &&
        !(c.status == ConversationStatus.deleted))) ∧
      List.Sorted convRecent l :=
  claim_c7_conversations_list dbC7 userC7 "w1" (by decide)

/-! ### C5: duplicate registration is rejected -/

/-- If some stored user already has the email, `register` fails with 400
"Email already registered" and leaves the store untouched. -/
lemma register_email_taken (db : DB) (uid wid : String) (now : Nat)
    (secret email pw name : String) (wn : Option String)
    (h : ∃ su ∈ db.users, su.user.email = email) :
    register db uid wid now secret email pw name wn =
      (db, .error (.http 400 "Email already registered")) := by
  obtain ⟨su, hmem, heq⟩ := h
  have hc : (db.users.any fun su => decide (su.user.email = email)) = true :=
    List.any_eq_true.mpr ⟨su, hmem, by simp [heq]⟩
  unfold register
  simp [hc]

/-- **C5.** After a successful registration of an email, registering the
same email again — with any other identifiers, password, name or
workspace name — always fails with HTTP 400 "Email already registered"
and leaves the database unchanged, so no second user record is created. -/
theorem claim_c5_duplicate_email (db0 db1 : DB) (r : TokenResponse)
    (uid wid : String) (now : Nat) (secret email pw name : String)
    (wn : Option String) (uid2 wid2 : String) (now2 : Nat)
    (secret2 pw2 name2 : String) (wn2 : Option String)
    (h : register db0 uid wid now secret email pw name wn = (db1, .ok r)) :
    register db1 uid2 wid2 now2 secret2 email pw2 name2 wn2 =
      (db1, .error (.http 400 "Email already registered")) := by
  unfold register at h
  split at h
  · simp at h
  · dsimp only at h
    split at h
    · simp at h
    · rename_i db1' hw
      split at h
      · simp at h
      · rename_i db2 hu
        simp only [Prod.mk.injEq, Except.ok.injEq] at h
        obtain ⟨hdb, -⟩ := h
        subst hdb
        unfold insertUser at hu
        split at hu
        · simp at hu
        · split at hu
          · simp at hu
          · simp only [Except.ok.injEq] at hu
            subst hu
            exact register_email_taken _ uid2 wid2 now2 secret2 email pw2
              name2 wn2
              ⟨_, List.mem_append_right _ (List.mem_singleton_self _), rfl⟩

/-- Witness for C5: registering `alice@example.com` into the empty store
succeeds; a second registration of the same email fails with 400 and
leaves the store as it was. -/
theorem claim_c5_duplicate_email_witness :
    register
        ((register ({} : DB) "u1" "w1" 0 "s" "alice@example.com" "pw"
          "Alice" none).1)
        "u2" "w2" 1 "s" "alice@example.com" "pw2" "Bob" none =
      ((register ({} : DB) "u1" "w1" 0 "s" "alice@example.com" "pw"
          "Alice" none).1,
       .error (.http 400 "Email already registered")) :=
  claim_c5_duplicate_email ({} : DB) _ _ "u1" "w1" 0 "s"
    "alice@example.com" "pw" "Alice" none "u2" "w2" 1 "s" "pw2" "Bob" none
    rfl

/-! ### C3: the message cascade of delete_assistant is a stubbed no-op -/

def userC3 : User :=
  { id := "u1", email := "alice@example.com", name := "Alice",
    created_at := 0, updated_at := 0, workspaces := ["w1"] }

def asstC3 : Assistant :=
  { id := "a1", workspace_id := "w1", name := "Helper",
    system_prompt := "sp", instructions := "", created_by := "u1",
    created_at := 0, updated_at := 0 }

def convC3 : Conversation :=
  { id := "c1", workspace_id := "w1", assistant_id := "a1", user_id := "u1",
    title := "Chat", status := ConversationStatus.active, created_at := 0,
    updated_at := 0 }

def msgC3 : Message :=
  { id := "m1", conversation_id := "c1", role := "user", content := "hi",
    created_at := 0 }

def dbC3 : DB :=
  { assistants := [asstC3], conversations := [convC3], messages := [msgC3] }

/-- **C3 (code evaluated at the failing input).** Deleting assistant `a1`
removes the assistant record and its conversation `c1`, but the message
filter `{"conversation_id": {"$in": []}}` matches nothing, so message `m1`
of the deleted conversation survives as an orphan — contradicting the
cascade-completeness the specification requires. -/
theorem claim_c3_orphan_message :
    delete_assistant dbC3 "w1" "a1" userC3 =
      ({ messages := [msgC3] }, .ok "Assistant deleted successfully") ∧
    msgC3.conversation_id = convC3.id := by
  refine ⟨rfl, rfl⟩

/-! ### C8: slug normalization, and the unguarded slug collision -/

def dbC8 : DB :=
  (register ({} : DB) "u1" "w1" 0 "s" "alice@example.com" "pw" "Alice"
    (some "My Team")).1

/-- **C8 (code evaluated at the failing input).** The slug of an explicit
workspace name is the name lower-cased with spaces replaced by hyphens —
but a second registration whose name normalizes to the same slug is not
turned into a structured SlugConflict: `register` runs straight into the
`workspaces.slug` unique index and the uncaught duplicate-key fault
escapes the handler (HTTP 500), creating neither workspace nor user. -/
theorem claim_c8_slug_collision_fault :
    slugify "My Team" = "my-team" ∧
    dbC8.workspaces.map (fun w => w.slug) = ["my-team"] ∧
    register dbC8 "u2" "w2" 1 "s" "bob@example.com" "pw" "Bob"
        (some "my team") =
      (dbC8, .error (.dbDuplicateKey "workspaces.slug")) := by
  refine ⟨by decide, by decide, rfl⟩

/-! ### C10: listing integrations never reveals stored OAuth secrets -/

/-- Two credential dicts agreeing on everything except the secret fields
`token`, `refresh_token` and `client_secret`. -/
def credsPublicEq (c d : GoogleCreds) : Prop :=
  c.token_uri = d.token_uri ∧ c.client_id = d.client_id ∧
  c.scopes = d.scopes ∧ c.google_user_id = d.google_user_id ∧
  c.google_email = d.google_email ∧ c.google_name = d.google_name

/-- Two stored integration records that differ at most in the secret
credential fields. -/
def sameExceptSecrets (a b : GoogleIntegration) : Prop :=
  a.id = b.id ∧ a.workspace_id = b.workspace_id ∧ a.user_id = b.user_id ∧
  a.service = b.service ∧ a.status = b.status ∧ a.settings = b.settings ∧
  a.last_sync = b.last_sync ∧ a.created_at = b.created_at ∧
  a.updated_at = b.updated_at ∧ credsPublicEq a.credentials b.credentials

lemma sanitize_eq_of_sameExceptSecrets (a b : GoogleIntegration)
    (hab : sameExceptSecrets a b) :
    sanitizeIntegration a = sanitizeIntegration b := by
  obtain ⟨h1, h2, h3, h4, h5, h6, h7, h8, h9, c1, c2, c3, c4, c5, c6⟩ := hab
  unfold sanitizeIntegration
  simp_all

lemma filter_map_sanitize (wid : String) :
    ∀ {l1 l2 : List GoogleIntegration},
      List.Forall₂ sameExceptSecrets l1 l2 →
      (l1.filter (fun g => g.workspace_id == wid &&
          !(g.status == GoogleIntegrationStatus.deleted))).map
        sanitizeIntegration =
      (l2.filter (fun g => g.workspace_id == wid &&
          !(g.status == GoogleIntegrationStatus.deleted))).map
        sanitizeIntegration := by
  intro l1 l2 h
  induction h with
  | nil => rfl
  | cons hab htl ih =>
      rename_i a b xs ys
      have hview := sanitize_eq_of_sameExceptSecrets a b hab
      obtain ⟨h1, h2, h3, h4, h5, h6, h7, h8, h9, hc⟩ := hab
      simp only [List.filter_cons]
      rw [h2, h5]
      split
      · simp only [List.map_cons, ih, hview]
      · exact ih

/-- **C10.** For any two database states whose stored Google integration
lists agree pointwise except possibly in the secret credential fields
(`token`, `refresh_token`, `client_secret`), `get_google_integrations`
returns identical responses: the sanitized view exposes from the
credentials only the connected Google email, display name and a constant
connected flag, so the secrets cannot influence (or leak into) the
output. -/
theorem claim_c10_secrets_not_exposed (db : DB)
    (l2 : List GoogleIntegration) (wid : String) (u : User)
    (h : List.Forall₂ sameExceptSecrets db.google_integrations l2) :
    get_google_integrations db wid u =
      get_google_integrations { db with google_integrations := l2 } wid u
    := by
  unfold get_google_integrations
  split
  · rw [filter_map_sanitize wid h]
  · rfl

def credsC10a : GoogleCreds :=
  { token := some "ya29.secret-A", refresh_token := some "1//refresh-A",
    token_uri := some "https://oauth2.googleapis.com/token",
    client_id := some "client-id", client_secret := some "cs-A",
    scopes := ["https://www.googleapis.com/auth/drive"],
    google_user_id := some "g123",
    google_email := some "alice@gmail.com",
    google_name := some "Alice" }

def credsC10b : GoogleCreds :=
  { credsC10a with token := some "ya29.secret-B",
                   refresh_token := some "1//refresh-B",
                   client_secret := some "cs-B" }

def integC10a : GoogleIntegration :=
  { id := "i1", workspace_id := "w1", user_id := "u1",
    service := "google_workspace",
    status := GoogleIntegrationStatus.connected,
    credentials := credsC10a, created_at := 0, updated_at := 0 }

def integC10b : GoogleIntegration := { integC10a with credentials := credsC10b }

def userC10 : User :=
  { id := "u1", email := "alice@example.com", name := "Alice",
    created_at := 0, updated_at := 0, workspaces := ["w1"] }

def dbC10 : DB := { google_integrations := [integC10a] }

/-- Witness for C10: swapping every secret field of the single stored
integration leaves the listing response unchanged. -/
theorem claim_c10_secrets_not_exposed_witness :
    get_google_integrations dbC10 "w1" userC10 =
      get_google_integrations { dbC10 with google_integrations := [integC10b] }
        "w1" userC10 :=
  claim_c10_secrets_not_exposed dbC10 [integC10b] "w1" userC10
    (by
      refine List.Forall₂.cons ?_ List.Forall₂.nil
      unfold sameExceptSecrets credsPublicEq
      refine ⟨rfl, rfl, rfl, rfl, rfl, rfl, rfl, rfl, rfl, ?_⟩
      refine ⟨rfl, rfl, rfl, rfl, rfl, rfl⟩)

end Versatil
